import Mathlib

/-!
Verification of the ps2map territory tracker core.

This file gives a shallow embedding of the reconciliation core of the
`app` package (files `_types.py`, `_territory_controller.py`,
`_state_manager.py`, `_messaging.py`, `_census_sync.py`) and proves or
refutes the testable properties stated for it.

Modelling conventions:
- Python `dict[int, V]` values become association lists `List (κ × V)`
  together with the key-uniqueness invariant `NodupKeys` where a proof
  needs it.  The helpers `dictLookup`, `dictInsert`, `dictPop` mirror
  `d.get(k)`, `d[k] = v` and `d.pop(k, None)` under that invariant.
- `datetime.datetime.now(datetime.UTC)` becomes an explicit `now`
  parameter of type `Timestamp := Nat`.
- Methods that mutate `self` become functions returning the updated
  object; `emit` calls become an explicit list of emitted payloads.
-/

namespace PS2Map

/-- Timestamps (`datetime.datetime` in `_types.py`); only equality and
freshness matter to the logic, so they are embedded as `Nat`. -/
abbrev Timestamp := Nat

/-- Mirrors `d.get(k)` on a Python dict embedded as an association list. -/
def dictLookup {κ α : Type} [DecidableEq κ] : List (κ × α) → κ → Option α
  | [], _ => none
  | p :: t, k => if p.1 = k then some p.2 else dictLookup t k

/-- Mirrors `d[k] = v` on a Python dict: replace the entry for `k` if one
exists (lists with `NodupKeys` have at most one), otherwise append. -/
def dictInsert {κ α : Type} [DecidableEq κ] : List (κ × α) → κ → α → List (κ × α)
  | [], k, v => [(k, v)]
  | p :: t, k, v => if p.1 = k then (k, v) :: t else p :: dictInsert t k v

/-- Mirrors `d.pop(k, None)`: drop the entry for `k` if present. -/
def dictPop {κ α : Type} [DecidableEq κ] : List (κ × α) → κ → List (κ × α)
  | [], _ => []
  | p :: t, k => if p.1 = k then dictPop t k else p :: dictPop t k

/-- The keys of an embedded dict, in storage order. -/
def keysOf {κ α : Type} (l : List (κ × α)) : List κ := l.map Prod.fst

/-- Key uniqueness: the invariant every Python dict maintains. -/
def NodupKeys {κ α : Type} (l : List (κ × α)) : Prop := (keysOf l).Nodup

instance nodupKeysDecidable {κ α : Type} [DecidableEq κ] (l : List (κ × α)) :
    Decidable (NodupKeys l) :=
  inferInstanceAs (Decidable (keysOf l).Nodup)

theorem keysOf_cons {κ α : Type} (p : κ × α) (t : List (κ × α)) :
    keysOf (p :: t) = p.1 :: keysOf t := rfl

theorem dictLookup_cons {κ α : Type} [DecidableEq κ]
    (p : κ × α) (t : List (κ × α)) (k : κ) :
    dictLookup (p :: t) k = if p.1 = k then some p.2 else dictLookup t k := rfl

theorem dictInsert_cons {κ α : Type} [DecidableEq κ]
    (p : κ × α) (t : List (κ × α)) (k : κ) (v : α) :
    dictInsert (p :: t) k v = if p.1 = k then (k, v) :: t else p :: dictInsert t k v := rfl

theorem dictPop_cons {κ α : Type} [DecidableEq κ]
    (p : κ × α) (t : List (κ × α)) (k : κ) :
    dictPop (p :: t) k = if p.1 = k then dictPop t k else p :: dictPop t k := rfl

theorem dictLookup_insert_self {κ α : Type} [DecidableEq κ]
    (l : List (κ × α)) (k : κ) (v : α) :
    dictLookup (dictInsert l k v) k = some v := by
  induction l with
  | nil => simp [dictInsert, dictLookup]
  | cons p t ih =>
      by_cases h : p.1 = k
      · rw [dictInsert_cons, if_pos h, dictLookup_cons, if_pos rfl]
      · rw [dictInsert_cons, if_neg h, dictLookup_cons, if_neg h, ih]

theorem dictLookup_insert_ne {κ α : Type} [DecidableEq κ]
    (l : List (κ × α)) (k k' : κ) (v : α) (hne : k' ≠ k) :
    dictLookup (dictInsert l k v) k' = dictLookup l k' := by
  have hne' : ¬(k = k') := fun h => hne h.symm
  induction l with
  | nil => simp [dictInsert, dictLookup, hne']
  | cons p t ih =>
      by_cases h : p.1 = k
      · rw [dictInsert_cons, if_pos h, dictLookup_cons, if_neg hne', dictLookup_cons,
          if_neg (h ▸ hne' : ¬(p.1 = k'))]
      · rw [dictInsert_cons, if_neg h, dictLookup_cons, dictLookup_cons, ih]

theorem dictLookup_pop_self {κ α : Type} [DecidableEq κ]
    (l : List (κ × α)) (k : κ) :
    dictLookup (dictPop l k) k = none := by
  induction l with
  | nil => simp [dictPop, dictLookup]
  | cons p t ih =>
      by_cases h : p.1 = k
      · rw [dictPop_cons, if_pos h, ih]
      · rw [dictPop_cons, if_neg h, dictLookup_cons, if_neg h, ih]

theorem dictLookup_pop_ne {κ α : Type} [DecidableEq κ]
    (l : List (κ × α)) (k k' : κ) (hne : k' ≠ k) :
    dictLookup (dictPop l k) k' = dictLookup l k' := by
  induction l with
  | nil => simp [dictPop]
  | cons p t ih =>
      by_cases h : p.1 = k
      · rw [dictPop_cons, if_pos h, dictLookup_cons,
          if_neg (h ▸ (fun he => hne he.symm) : ¬(p.1 = k')), ih]
      · rw [dictPop_cons, if_neg h, dictLookup_cons, dictLookup_cons, ih]

theorem dictLookup_mem {κ α : Type} [DecidableEq κ]
    {l : List (κ × α)} {k : κ} {v : α} (h : dictLookup l k = some v) :
    (k, v) ∈ l := by
  induction l with
  | nil => simp [dictLookup] at h
  | cons p t ih =>
      by_cases hp : p.1 = k
      · rw [dictLookup_cons, if_pos hp] at h
        have hv : p.2 = v := Option.some.inj h
        rw [← hp, ← hv]
        exact List.mem_cons_self _ _
      · rw [dictLookup_cons, if_neg hp] at h
        exact List.mem_cons_of_mem _ (ih h)

theorem mem_dictLookup {κ α : Type} [DecidableEq κ]
    {l : List (κ × α)} {k : κ} {v : α}
    (hmem : (k, v) ∈ l) (hnd : NodupKeys l) :
    dictLookup l k = some v := by
  induction l with
  | nil => simp at hmem
  | cons p t ih =>
      have hnd' : p.1 ∉ keysOf t ∧ NodupKeys t := by
        rw [NodupKeys, keysOf_cons, List.nodup_cons] at hnd
        exact hnd
      rcases List.mem_cons.mp hmem with h | h
      · rw [← h]
        simp [dictLookup]
      · have hk : k ∈ keysOf t := List.mem_map.mpr ⟨(k, v), h, rfl⟩
        have hp1 : p.1 ≠ k := fun he => hnd'.1 (he ▸ hk)
        rw [dictLookup_cons, if_neg hp1, ih h hnd'.2]

theorem dictLookup_eq_none {κ α : Type} [DecidableEq κ]
    {l : List (κ × α)} {k : κ} (h : k ∉ keysOf l) :
    dictLookup l k = none := by
  induction l with
  | nil => rfl
  | cons p t ih =>
      have h1 : p.1 ≠ k := fun he => h (he ▸ List.mem_cons_self _ _)
      have h2 : k ∉ keysOf t := fun hm => h (List.mem_cons_of_mem _ hm)
      rw [dictLookup_cons, if_neg h1, ih h2]

theorem mem_keys_of_lookup {κ α : Type} [DecidableEq κ]
    {l : List (κ × α)} {k : κ} {v : α} (h : dictLookup l k = some v) :
    k ∈ keysOf l :=
  List.mem_map.mpr ⟨(k, v), dictLookup_mem h, rfl⟩

theorem mem_keys_insert {κ α : Type} [DecidableEq κ]
    (l : List (κ × α)) (k k' : κ) (v : α) :
    k' ∈ keysOf (dictInsert l k v) ↔ k' ∈ keysOf l ∨ k' = k := by
  induction l with
  | nil => simp [dictInsert, keysOf]
  | cons p t ih =>
      by_cases h : p.1 = k
      · rw [dictInsert_cons, if_pos h, keysOf_cons, keysOf_cons]
        simp only [List.mem_cons]
        constructor
        · intro hc
          rcases hc with hc | hc
          · exact Or.inr hc
          · exact Or.inl (Or.inr hc)
        · intro hc
          rcases hc with hc | hc
          · rcases hc with hc | hc
            · exact Or.inl (h ▸ hc)
            · exact Or.inr hc
          · exact Or.inl hc
      · rw [dictInsert_cons, if_neg h, keysOf_cons, keysOf_cons]
        simp only [List.mem_cons, ih]
        tauto

theorem keys_insert_mono {κ α : Type} [DecidableEq κ]
    (l : List (κ × α)) (k k' : κ) (v : α) (h : k' ∈ keysOf l) :
    k' ∈ keysOf (dictInsert l k v) :=
  (mem_keys_insert l k k' v).mpr (Or.inl h)

theorem nodupKeys_insert {κ α : Type} [DecidableEq κ]
    (l : List (κ × α)) (k : κ) (v : α) (h : NodupKeys l) :
    NodupKeys (dictInsert l k v) := by
  induction l with
  | nil => simp [dictInsert, NodupKeys, keysOf]
  | cons p t ih =>
      rw [NodupKeys, keysOf_cons, List.nodup_cons] at h
      by_cases hp : p.1 = k
      · rw [NodupKeys, dictInsert_cons, if_pos hp, keysOf_cons, List.nodup_cons]
        exact ⟨fun hm => h.1 (hp ▸ hm), h.2⟩
      · rw [NodupKeys, dictInsert_cons, if_neg hp, keysOf_cons, List.nodup_cons]
        constructor
        · intro hm
          rcases (mem_keys_insert t k p.1 v).mp hm with hm | hm
          · exact h.1 hm
          · exact hp hm
        · exact ih h.2

theorem nodupKeys_filter {κ α : Type} (l : List (κ × α)) (p : κ × α → Bool)
    (h : NodupKeys l) : NodupKeys (l.filter p) := by
  have hs : List.Sublist (keysOf (l.filter p)) (keysOf l) :=
    List.Sublist.map Prod.fst (List.filter_sublist l)
  exact List.Nodup.sublist hs h

theorem nodupKeys_unique {κ α : Type} [DecidableEq κ]
    {l : List (κ × α)} {k : κ} {a b : α}
    (h : NodupKeys l) (ha : (k, a) ∈ l) (hb : (k, b) ∈ l) : a = b := by
  have h1 := mem_dictLookup ha h
  have h2 := mem_dictLookup hb h
  rw [h1] at h2
  exact Option.some.inj h2

/-- Facility status information (`_types.py`, `FacilityStatus`): the
NamedTuple fields `current_faction`, `last_capture`, `last_capture_by`.
The type has no `faction_id` attribute; `_state_manager.py` nevertheless
reads `old_status.faction_id` / `status.faction_id` (lines 51, 54, 63-65),
so those accesses raise `AttributeError` at run time — see
`StateManager.handle_map_update` below, which models the raise. -/
structure FacilityStatus where
  current_faction : Nat
  last_capture : Timestamp
  last_capture_by : Option Nat
deriving DecidableEq

/-- Territory controller state (`_territory_controller.py`):
`_server_id`, `_zone_id`, `_ownership : dict[int, tuple[int, Timestamp]]`
and `_outfits : dict[int, int]`, both dicts starting empty. -/
structure TerritoryController where
  server_id : Nat
  zone_id : Nat
  ownership : List (Nat × Nat × Timestamp)
  outfits : List (Nat × Nat)
deriving DecidableEq

/-- Constructor `TerritoryController.__init__`: empty ownership and
outfit maps for the given server and zone. -/
def TerritoryController.init (server_id zone_id : Nat) : TerritoryController :=
  { server_id := server_id, zone_id := zone_id, ownership := [], outfits := [] }

/-- Property `map_status`: materializes `(server_id, zone_id, status)`
where each facility maps to `FacilityStatus(faction, last_captured,
self._outfits.get(facility))`. -/
def TerritoryController.map_status (c : TerritoryController) :
    Nat × Nat × List (Nat × FacilityStatus) :=
  (c.server_id, c.zone_id,
    c.ownership.map (fun e => (e.1, FacilityStatus.mk e.2.1 e.2.2 (dictLookup c.outfits e.1))))

/-- Method `_facility_items`: the set `{(k, v) for k, (v, _) in self._ownership.items()}`
of (facility, faction) pairs, embedded as the list of pairs. -/
def TerritoryController.facility_items (c : TerritoryController) : List (Nat × Nat) :=
  c.ownership.map (fun e => (e.1, e.2.1))

/-- Loop body of `update_ownership` for one changed facility:
`self._ownership[facility_id] = (faction_id, now)` followed by
`self._outfits.pop(facility_id, None)`. -/
def TerritoryController.apply_change (now : Timestamp)
    (acc : TerritoryController) (kv : Nat × Nat) : TerritoryController :=
  { acc with
    ownership := dictInsert acc.ownership kv.1 (kv.2, now),
    outfits := dictPop acc.outfits kv.1 }

/-- Method `update_ownership(facilities)` (returns the updated controller
together with the Python return value).  If `self._ownership` is falsy
(empty), adopt the whole candidate stamped `now` and return its size;
otherwise apply `dict(facilities.items() - self._facility_items())` and
return the number of changed facilities. -/
def TerritoryController.update_ownership (c : TerritoryController)
    (facilities : List (Nat × Nat)) (now : Timestamp) :
    TerritoryController × Nat :=
  if c.ownership = [] then
    let own := facilities.map (fun kv => (kv.1, kv.2, now))
    ({ c with ownership := own }, own.length)
  else
    let changes := facilities.filter (fun kv => !(decide (kv ∈ c.facility_items)))
    (changes.foldl (TerritoryController.apply_change now) c, changes.length)

/-- State manager registry (`_state_manager.py`): `self._territory`,
a dict keyed by `(server_id, zone_id)`. -/
structure StateManager where
  territory : List ((Nat × Nat) × TerritoryController)
deriving DecidableEq

/-- Method `_get_controller`: look the key up, lazily inserting a fresh
`TerritoryController(server_id, zone_id)` when absent; returns the
(possibly updated) registry together with `self._territory[key]`. -/
def StateManager.get_controller (st : StateManager) (server_id zone_id : Nat) :
    StateManager × TerritoryController :=
  match dictLookup st.territory (server_id, zone_id) with
  | some c => (st, c)
  | none =>
      let c := TerritoryController.init server_id zone_id
      ({ territory := dictInsert st.territory (server_id, zone_id) c }, c)

/-- Result of a state-manager handler: the registry as the handler leaves
it, the payloads it emitted on topic `map_update`, whether
`update_ownership` reported a change (`false` on the early returns and
when the handler raises before reporting anything), which of the two
warning logs fired, and whether an exception escaped the handler
(`raised = true` means an `AttributeError` propagated to the caller and
the other fields describe what had happened up to that point). -/
structure UpdateResult where
  state : StateManager
  emitted : List (Nat × Nat × List (Nat × FacilityStatus))
  changed : Bool
  warned_mismatch : Bool
  warned_unknown : Bool
  raised : Bool
deriving DecidableEq

/-- Method `handle_map_poll(payload)`: fetch or create the controller,
call `update_ownership`, and emit the controller's `map_status` on
`map_update` when the changed count is positive.  Every attribute this
handler touches exists, so it completes normally (`raised = false`). -/
def StateManager.handle_map_poll (st : StateManager) (now : Timestamp)
    (payload : Nat × Nat × List (Nat × Nat)) : UpdateResult :=
  let server_id := payload.1
  let zone_id := payload.2.1
  let facilities := payload.2.2
  let fetched := st.get_controller server_id zone_id
  let updated := fetched.2.update_ownership facilities now
  let st2 : StateManager :=
    { territory := dictInsert fetched.1.territory (server_id, zone_id) updated.1 }
  if updated.2 > 0 then
    { state := st2, emitted := [updated.1.map_status], changed := true,
      warned_mismatch := false, warned_unknown := false, raised := false }
  else
    { state := st2, emitted := [], changed := false,
      warned_mismatch := false, warned_unknown := false, raised := false }

/-- Method `handle_map_update(payload)`: fetch or create the controller;
warn and return when its ids mismatch the payload (lines 42-46, which
read only `controller.server_id`/`zone_id` and complete normally).  Past
that guard the source reads `old_status.faction_id` and
`status.faction_id` (lines 51, 54, 63-66) — attributes the
`FacilityStatus` NamedTuple does not have (its field is
`current_faction`) — so every remaining path raises `AttributeError`
before touching any ownership map and before any emit: for a facility
known to the controller (`old_status is not None`) the comparison on
line 51 raises immediately, whether the update is a resecure or a
capture; for an unknown facility the `facility ... not found` warning on
lines 59-60 is logged and then evaluating the capture log's
`status.faction_id` argument (lines 63-65) raises before
`update_ownership` is ever called.  The registry keeps only the mutation
`_get_controller` already made. -/
def StateManager.handle_map_update (st : StateManager) (_now : Timestamp)
    (payload : Nat × Nat × Nat × FacilityStatus) : UpdateResult :=
  let server_id := payload.1
  let zone_id := payload.2.1
  let base_id := payload.2.2.1
  let fetched := st.get_controller server_id zone_id
  let st1 := fetched.1
  let controller := fetched.2
  if server_id ≠ controller.server_id ∨ zone_id ≠ controller.zone_id then
    { state := st1, emitted := [], changed := false,
      warned_mismatch := true, warned_unknown := false, raised := false }
  else
    match dictLookup controller.map_status.2.2 base_id with
    | some _ =>
        { state := st1, emitted := [], changed := false,
          warned_mismatch := false, warned_unknown := false, raised := true }
    | none =>
        { state := st1, emitted := [], changed := false,
          warned_mismatch := false, warned_unknown := true, raised := true }

/-- One inbound message for the state manager: a `map_poll` payload from
the REST syncer or a `map_update` payload from the event listener, each
tagged with the wall-clock time at which it is handled. -/
inductive Op where
  | poll (now : Timestamp) (payload : Nat × Nat × List (Nat × Nat))
  | update (now : Timestamp) (payload : Nat × Nat × Nat × FacilityStatus)

/-- Apply one inbound message to the registry. -/
def StateManager.applyOp (st : StateManager) : Op → StateManager
  | .poll now p => (st.handle_map_poll now p).state
  | .update now p => (st.handle_map_update now p).state

/-- Apply a sequence of inbound messages in order. -/
def StateManager.applyOps (st : StateManager) (ops : List Op) : StateManager :=
  ops.foldl StateManager.applyOp st

/-- Registry states reachable from the constructor state (an empty
`self._territory`) under the two message handlers — the only code that
ever touches the registry. -/
inductive StateManager.Reachable : StateManager → Prop where
  | init : StateManager.Reachable { territory := [] }
  | step (op : Op) {st : StateManager} (h : StateManager.Reachable st) :
      StateManager.Reachable (st.applyOp op)

/-! Basic facts about `TerritoryController.update_ownership`. -/

theorem apply_change_ids (now : Timestamp) (acc : TerritoryController) (kv : Nat × Nat) :
    (TerritoryController.apply_change now acc kv).server_id = acc.server_id ∧
    (TerritoryController.apply_change now acc kv).zone_id = acc.zone_id :=
  ⟨rfl, rfl⟩

theorem foldl_apply_change_ids (now : Timestamp) :
    ∀ (chs : List (Nat × Nat)) (acc : TerritoryController),
      ((chs.foldl (TerritoryController.apply_change now) acc).server_id = acc.server_id ∧
       (chs.foldl (TerritoryController.apply_change now) acc).zone_id = acc.zone_id)
  | [], _ => ⟨rfl, rfl⟩
  | kv :: t, acc => foldl_apply_change_ids now t (TerritoryController.apply_change now acc kv)

theorem foldl_apply_change_lookup (now : Timestamp) :
    ∀ (chs : List (Nat × Nat)) (c : TerritoryController) (k : Nat),
      NodupKeys chs →
      dictLookup (chs.foldl (TerritoryController.apply_change now) c).ownership k =
        (match dictLookup chs k with
         | some v => some (v, now)
         | none => dictLookup c.ownership k) := by
  intro chs
  induction chs with
  | nil => intro c k _; rfl
  | cons kv t ih =>
      intro c k hnd
      have hnd' : kv.1 ∉ keysOf t ∧ NodupKeys t := by
        rw [NodupKeys, keysOf_cons, List.nodup_cons] at hnd
        exact hnd
      have hstep : (kv :: t).foldl (TerritoryController.apply_change now) c =
          t.foldl (TerritoryController.apply_change now)
            (TerritoryController.apply_change now c kv) := rfl
      rw [hstep, ih _ k hnd'.2]
      by_cases hk : kv.1 = k
      · subst hk
        have hnone : dictLookup t kv.1 = none := dictLookup_eq_none hnd'.1
        rw [hnone]
        simp only [dictLookup_cons, if_pos rfl]
        exact dictLookup_insert_self _ _ _
      · simp only [dictLookup_cons, if_neg hk]
        match hmt : dictLookup t k with
        | some v => rfl
        | none =>
            exact dictLookup_insert_ne _ _ _ _ (fun he => hk he.symm)

theorem foldl_apply_change_outfits (now : Timestamp) :
    ∀ (chs : List (Nat × Nat)) (c : TerritoryController) (k : Nat),
      dictLookup (chs.foldl (TerritoryController.apply_change now) c).outfits k =
        (if k ∈ keysOf chs then none else dictLookup c.outfits k) := by
  intro chs
  induction chs with
  | nil => intro c k; simp [keysOf]
  | cons kv t ih =>
      intro c k
      have hstep : (kv :: t).foldl (TerritoryController.apply_change now) c =
          t.foldl (TerritoryController.apply_change now)
            (TerritoryController.apply_change now c kv) := rfl
      rw [hstep, ih]
      by_cases ht : k ∈ keysOf t
      · simp [ht, keysOf_cons]
      · by_cases hk : k = kv.1
        · subst hk
          simp only [if_neg ht, keysOf_cons, List.mem_cons, true_or, if_pos, if_true]
          simp [TerritoryController.apply_change, dictLookup_pop_self]
        · have : k ∉ keysOf (kv :: t) := by
            rw [keysOf_cons]
            intro hm
            rcases List.mem_cons.mp hm with hm | hm
            · exact hk hm
            · exact ht hm
          simp only [if_neg ht, if_neg this]
          exact dictLookup_pop_ne _ _ _ hk

theorem foldl_apply_change_keys (now : Timestamp) :
    ∀ (chs : List (Nat × Nat)) (c : TerritoryController) (k : Nat),
      k ∈ keysOf c.ownership →
      k ∈ keysOf (chs.foldl (TerritoryController.apply_change now) c).ownership := by
  intro chs
  induction chs with
  | nil => intro c k h; exact h
  | cons kv t ih =>
      intro c k h
      exact ih _ k (keys_insert_mono _ _ _ _ h)

theorem dictInsert_ne_nil {κ α : Type} [DecidableEq κ]
    (l : List (κ × α)) (k : κ) (v : α) : dictInsert l k v ≠ [] := by
  cases l with
  | nil => simp [dictInsert]
  | cons p t =>
      rw [dictInsert_cons]
      by_cases h : p.1 = k
      · simp [h]
      · simp [h]

theorem foldl_apply_change_ne_nil (now : Timestamp) :
    ∀ (chs : List (Nat × Nat)) (c : TerritoryController),
      c.ownership ≠ [] →
      (chs.foldl (TerritoryController.apply_change now) c).ownership ≠ [] := by
  intro chs
  induction chs with
  | nil => intro c h; exact h
  | cons kv t ih =>
      intro c _
      exact ih _ (dictInsert_ne_nil _ _ _)

theorem foldl_apply_change_nodup (now : Timestamp) :
    ∀ (chs : List (Nat × Nat)) (c : TerritoryController),
      NodupKeys c.ownership →
      NodupKeys (chs.foldl (TerritoryController.apply_change now) c).ownership := by
  intro chs
  induction chs with
  | nil => intro c h; exact h
  | cons kv t ih =>
      intro c h
      exact ih _ (nodupKeys_insert _ _ _ h)

theorem items_of_lookup {c : TerritoryController} {k : Nat} {vt : Nat × Timestamp}
    (h : dictLookup c.ownership k = some vt) :
    (k, vt.1) ∈ c.facility_items :=
  List.mem_map.mpr ⟨(k, vt), dictLookup_mem h, rfl⟩

theorem mem_items_keys {c : TerritoryController} {k v : Nat}
    (h : (k, v) ∈ c.facility_items) : k ∈ keysOf c.ownership := by
  rcases List.mem_map.mp h with ⟨e, he, heq⟩
  have : e.1 = k := congrArg Prod.fst heq
  exact List.mem_map.mpr ⟨e, he, this⟩

theorem items_lookup {c : TerritoryController} {k v : Nat}
    (h : (k, v) ∈ c.facility_items) (hnd : NodupKeys c.ownership) :
    ∃ t, dictLookup c.ownership k = some (v, t) := by
  rcases List.mem_map.mp h with ⟨e, he, heq⟩
  have h1 : e.1 = k := congrArg Prod.fst heq
  have h2 : e.2.1 = v := congrArg Prod.snd heq
  refine ⟨e.2.2, ?_⟩
  have := mem_dictLookup (h1 ▸ he : (k, e.2) ∈ c.ownership) hnd
  rw [this, ← h2]

theorem dictLookup_status_map (outf : List (Nat × Nat)) (f : Nat) :
    ∀ own : List (Nat × Nat × Timestamp),
      dictLookup (own.map
          (fun e => (e.1, FacilityStatus.mk e.2.1 e.2.2 (dictLookup outf e.1)))) f =
        (dictLookup own f).map
          (fun v => FacilityStatus.mk v.1 v.2 (dictLookup outf f))
  | [] => rfl
  | e :: t => by
      rw [List.map_cons, dictLookup_cons, dictLookup_cons]
      by_cases h : e.1 = f
      · subst h
        simp
      · simp only [h, if_neg h, if_false]
        exact dictLookup_status_map outf f t

theorem map_status_lookup (c : TerritoryController) (f : Nat) :
    dictLookup c.map_status.2.2 f =
      (dictLookup c.ownership f).map
        (fun v => FacilityStatus.mk v.1 v.2 (dictLookup c.outfits f)) :=
  dictLookup_status_map c.outfits f c.ownership

/-! Claim theorems. -/

/-- C3: for every candidate mapping `m`, `update_ownership` on a
controller whose OwnershipMap is empty adopts `m` wholesale — the map
afterwards has exactly the keys of `m` with `m`'s factions, every entry
stamped with the current time — and returns `len(m)`.  (`NodupKeys m`
records that a Python dict argument has unique keys.) -/
theorem C3_bootstrap (c : TerritoryController) (m : List (Nat × Nat)) (now : Timestamp)
    (hempty : c.ownership = []) (hm : NodupKeys m) :
    (c.update_ownership m now).1.ownership = m.map (fun kv => (kv.1, kv.2, now)) ∧
    (c.update_ownership m now).2 = m.length := by
  rw [TerritoryController.update_ownership, if_pos hempty]
  exact ⟨rfl, List.length_map _ _⟩

/-- Witness for C3 at a concrete empty controller and two-entry mapping. -/
theorem C3_bootstrap_witness :
    ((TerritoryController.init 1 2).update_ownership [(1, 5), (2, 6)] 42).1.ownership
        = [(1, 5, 42), (2, 6, 42)] ∧
    ((TerritoryController.init 1 2).update_ownership [(1, 5), (2, 6)] 42).2 = 2 :=
  C3_bootstrap (TerritoryController.init 1 2) [(1, 5), (2, 6)] 42 rfl (by decide)

/-- Past the mismatch guard, a payload for a facility the controller
knows hits the `old_status.faction_id` access of line 51 — an attribute
`FacilityStatus` does not have — and raises `AttributeError`: the
registry is left exactly as the lookup found it, nothing is emitted, no
change is reported and neither warning fires, whether the incoming
faction equals the stored one or not. -/
theorem handle_map_update_known_raises (st : StateManager) (now : Timestamp)
    (s z f : Nat) (c : TerritoryController) (status fs : FacilityStatus)
    (hc : dictLookup st.territory (s, z) = some c)
    (hs : c.server_id = s) (hz : c.zone_id = z)
    (hsome : dictLookup c.map_status.2.2 f = some fs) :
    st.handle_map_update now (s, z, f, status)
      = UpdateResult.mk st [] false false false true := by
  have hmis : ¬(s ≠ c.server_id ∨ z ≠ c.zone_id) := by
    intro h
    rcases h with h | h
    · exact h hs.symm
    · exact h hz.symm
  simp only [StateManager.handle_map_update, StateManager.get_controller, hc,
    if_neg hmis, hsome]

/-- Past the mismatch guard, a payload for a facility the controller does
not know logs the `facility ... not found` warning (lines 59-60) and
then hits the `status.faction_id` log argument of lines 63-65, raising
`AttributeError` before `update_ownership` is called: the registry is
unchanged and nothing is emitted or added. -/
theorem handle_map_update_unknown_raises (st : StateManager) (now : Timestamp)
    (s z f : Nat) (c : TerritoryController) (status : FacilityStatus)
    (hc : dictLookup st.territory (s, z) = some c)
    (hs : c.server_id = s) (hz : c.zone_id = z)
    (hnone : dictLookup c.map_status.2.2 f = none) :
    st.handle_map_update now (s, z, f, status)
      = UpdateResult.mk st [] false false true true := by
  have hmis : ¬(s ≠ c.server_id ∨ z ≠ c.zone_id) := by
    intro h
    rcases h with h | h
    · exact h hs.symm
    · exact h hz.symm
  simp only [StateManager.handle_map_update, StateManager.get_controller, hc,
    if_neg hmis, hnone]

/-- C1, evaluated at the failing input: a resecure of facility 10 (owned
by faction 3 since time 100) by faction 3 does not return
`changed == false` — the handler raises `AttributeError` reading the
nonexistent `old_status.faction_id` before the resecure comparison on
line 51.  The stored timestamp is nonetheless untouched and no
`map_update` is emitted, because the crash precedes every mutation and
emit. -/
theorem C1_resecure_raises :
    (StateManager.handle_map_update
        { territory := [((1, 2), TerritoryController.mk 1 2 [(10, 3, 100)] [])] } 5
        (1, 2, 10, FacilityStatus.mk 3 200 none)).raised = true ∧
    (StateManager.handle_map_update
        { territory := [((1, 2), TerritoryController.mk 1 2 [(10, 3, 100)] [])] } 5
        (1, 2, 10, FacilityStatus.mk 3 200 none)).state
      = { territory := [((1, 2), TerritoryController.mk 1 2 [(10, 3, 100)] [])] } ∧
    (StateManager.handle_map_update
        { territory := [((1, 2), TerritoryController.mk 1 2 [(10, 3, 100)] [])] } 5
        (1, 2, 10, FacilityStatus.mk 3 200 none)).emitted = [] ∧
    (StateManager.handle_map_update
        { territory := [((1, 2), TerritoryController.mk 1 2 [(10, 3, 100)] [])] } 5
        (1, 2, 10, FacilityStatus.mk 3 200 none)).changed = false := by
  decide

theorem lookup_isSome_of_mem_keys {κ α : Type} [DecidableEq κ]
    {l : List (κ × α)} {k : κ} (h : k ∈ keysOf l) :
    ∃ v, dictLookup l k = some v := by
  induction l with
  | nil => simp [keysOf] at h
  | cons p t ih =>
      by_cases hp : p.1 = k
      · exact ⟨p.2, by rw [dictLookup_cons, if_pos hp]⟩
      · have : k ∈ keysOf t := by
          rcases List.mem_cons.mp h with hm | hm
          · exact absurd hm.symm hp
          · exact hm
        rcases ih this with ⟨v, hv⟩
        exact ⟨v, by rw [dictLookup_cons, if_neg hp, hv]⟩

theorem ne_nil_of_lookup {κ α : Type} [DecidableEq κ]
    {l : List (κ × α)} {k : κ} {v : α} (h : dictLookup l k = some v) :
    l ≠ [] := by
  intro he
  subst he
  simp [dictLookup] at h

/-- On an already initialized map, a single-entry candidate that is not
among the current (facility, faction) pairs produces exactly one change. -/
theorem single_update (c : TerritoryController) (f q : Nat) (now : Timestamp)
    (hitem : (f, q) ∉ c.facility_items) (hne : c.ownership ≠ []) :
    c.update_ownership [(f, q)] now = (TerritoryController.apply_change now c (f, q), 1) := by
  rw [TerritoryController.update_ownership, if_neg hne]
  have hfil : [(f, q)].filter (fun kv => !(decide (kv ∈ c.facility_items))) = [(f, q)] := by
    simp [hitem]
  rw [hfil]
  rfl

/-- C2 counterexample: a controller that knows only facility 10 receives
a single-facility update for the unknown facility 5 with faction 4.  The
handler does log the warning and leaves the maps untouched, but it does
not return `changed == false`: it raises `AttributeError` (the
nonexistent `status.faction_id` in the capture log's arguments) before
`update_ownership`, so no value is returned at all. -/
theorem C2_unknown_raises_counterexample :
    (StateManager.handle_map_update
        { territory := [((1, 2), TerritoryController.mk 1 2 [(10, 3, 100)] [])] } 300
        (1, 2, 5, FacilityStatus.mk 4 200 none)).raised = true ∧
    (StateManager.handle_map_update
        { territory := [((1, 2), TerritoryController.mk 1 2 [(10, 3, 100)] [])] } 300
        (1, 2, 5, FacilityStatus.mk 4 200 none)).warned_unknown = true ∧
    (StateManager.handle_map_update
        { territory := [((1, 2), TerritoryController.mk 1 2 [(10, 3, 100)] [])] } 300
        (1, 2, 5, FacilityStatus.mk 4 200 none)).state
      = { territory := [((1, 2), TerritoryController.mk 1 2 [(10, 3, 100)] [])] } ∧
    (StateManager.handle_map_update
        { territory := [((1, 2), TerritoryController.mk 1 2 [(10, 3, 100)] [])] } 300
        (1, 2, 5, FacilityStatus.mk 4 200 none)).emitted = [] := by
  decide

/-- C2 amended: a single-facility update for a facility absent from the
controller's OwnershipMap logs the `facility ... not found` warning and
then raises `AttributeError` (the stale `status.faction_id` attribute in
the capture log's arguments, lines 63-65) before `update_ownership`, so
no `changed` value is returned; the OwnershipMap and OutfitMap are left
exactly as they were — the update cannot add the facility or bootstrap
the zone, and no `map_update` is emitted. -/
theorem C2_unknown_warn_then_raise (st : StateManager) (now : Timestamp)
    (s z f : Nat) (c : TerritoryController) (status : FacilityStatus)
    (hc : dictLookup st.territory (s, z) = some c)
    (hs : c.server_id = s) (hz : c.zone_id = z)
    (hf : dictLookup c.ownership f = none) :
    (st.handle_map_update now (s, z, f, status)).raised = true ∧
    (st.handle_map_update now (s, z, f, status)).warned_unknown = true ∧
    (st.handle_map_update now (s, z, f, status)).state = st ∧
    (st.handle_map_update now (s, z, f, status)).emitted = [] ∧
    (st.handle_map_update now (s, z, f, status)).changed = false := by
  have hnone : dictLookup c.map_status.2.2 f = none := by
    rw [map_status_lookup, hf]
    rfl
  rw [handle_map_update_unknown_raises st now s z f c status hc hs hz hnone]
  exact ⟨rfl, rfl, rfl, rfl, rfl⟩

/-- Witness for the amended C2 at a concrete one-facility controller. -/
theorem C2_unknown_warn_then_raise_witness :
    (StateManager.handle_map_update
        { territory := [((1, 2), TerritoryController.mk 1 2 [(10, 3, 100)] [])] } 300
        (1, 2, 5, FacilityStatus.mk 4 200 none)).raised = true ∧
    (StateManager.handle_map_update
        { territory := [((1, 2), TerritoryController.mk 1 2 [(10, 3, 100)] [])] } 300
        (1, 2, 5, FacilityStatus.mk 4 200 none)).warned_unknown = true ∧
    (StateManager.handle_map_update
        { territory := [((1, 2), TerritoryController.mk 1 2 [(10, 3, 100)] [])] } 300
        (1, 2, 5, FacilityStatus.mk 4 200 none)).state
      = { territory := [((1, 2), TerritoryController.mk 1 2 [(10, 3, 100)] [])] } ∧
    (StateManager.handle_map_update
        { territory := [((1, 2), TerritoryController.mk 1 2 [(10, 3, 100)] [])] } 300
        (1, 2, 5, FacilityStatus.mk 4 200 none)).emitted = [] ∧
    (StateManager.handle_map_update
        { territory := [((1, 2), TerritoryController.mk 1 2 [(10, 3, 100)] [])] } 300
        (1, 2, 5, FacilityStatus.mk 4 200 none)).changed = false :=
  C2_unknown_warn_then_raise
    { territory := [((1, 2), TerritoryController.mk 1 2 [(10, 3, 100)] [])] } 300
    1 2 5 (TerritoryController.mk 1 2 [(10, 3, 100)] []) (FacilityStatus.mk 4 200 none)
    (by decide) rfl rfl (by decide)

/-- C5 counterexample: facility 10 is owned by faction 3 (since time 100)
and credited to outfit 7; a capture event by faction 4 supplying outfit 9
arrives.  The handler raises `AttributeError` at the `old_status.faction_id`
comparison (line 51) before the capture code: no change is reported,
nothing is emitted, and the facility's faction, timestamp and outfit all
keep their old values — nothing is overwritten. -/
theorem C5_capture_raises_counterexample :
    (StateManager.handle_map_update
        { territory := [((1, 2), TerritoryController.mk 1 2 [(10, 3, 100)] [(10, 7)])] } 300
        (1, 2, 10, FacilityStatus.mk 4 200 (some 9))).raised = true ∧
    (StateManager.handle_map_update
        { territory := [((1, 2), TerritoryController.mk 1 2 [(10, 3, 100)] [(10, 7)])] } 300
        (1, 2, 10, FacilityStatus.mk 4 200 (some 9))).changed = false ∧
    (StateManager.handle_map_update
        { territory := [((1, 2), TerritoryController.mk 1 2 [(10, 3, 100)] [(10, 7)])] } 300
        (1, 2, 10, FacilityStatus.mk 4 200 (some 9))).state
      = { territory := [((1, 2), TerritoryController.mk 1 2 [(10, 3, 100)] [(10, 7)])] } ∧
    (StateManager.handle_map_update
        { territory := [((1, 2), TerritoryController.mk 1 2 [(10, 3, 100)] [(10, 7)])] } 300
        (1, 2, 10, FacilityStatus.mk 4 200 (some 9))).emitted = [] := by
  decide

/-- C5 amended: a single-facility update for a known facility with a
different faction never reaches the capture code: the handler raises
`AttributeError` at the `old_status.faction_id` comparison (line 51), so
the facility's faction, timestamp and recorded outfit are all left
unchanged, no change is reported and no `map_update` is emitted. -/
theorem C5_capture_raises (st : StateManager) (now : Timestamp)
    (s z f p t : Nat) (c : TerritoryController) (status : FacilityStatus)
    (hc : dictLookup st.territory (s, z) = some c)
    (hs : c.server_id = s) (hz : c.zone_id = z)
    (hf : dictLookup c.ownership f = some (p, t))
    (hq : status.current_faction ≠ p) :
    (st.handle_map_update now (s, z, f, status)).raised = true ∧
    (st.handle_map_update now (s, z, f, status)).changed = false ∧
    (st.handle_map_update now (s, z, f, status)).emitted = [] ∧
    (∃ c', dictLookup (st.handle_map_update now (s, z, f, status)).state.territory (s, z)
        = some c' ∧
      dictLookup c'.ownership f = some (p, t) ∧
      dictLookup c'.outfits f = dictLookup c.outfits f) := by
  have hsome : dictLookup c.map_status.2.2 f
      = some (FacilityStatus.mk p t (dictLookup c.outfits f)) := by
    rw [map_status_lookup, hf]
    rfl
  rw [handle_map_update_known_raises st now s z f c status _ hc hs hz hsome]
  exact ⟨rfl, rfl, rfl, c, hc, hf, rfl⟩

/-- Witness for the amended C5 at a concrete controller with a recorded
outfit for the facility under capture. -/
theorem C5_capture_raises_witness :
    (StateManager.handle_map_update
        { territory := [((1, 2), TerritoryController.mk 1 2 [(10, 3, 100)] [(10, 7)])] } 300
        (1, 2, 10, FacilityStatus.mk 4 200 (some 9))).raised = true ∧
    (StateManager.handle_map_update
        { territory := [((1, 2), TerritoryController.mk 1 2 [(10, 3, 100)] [(10, 7)])] } 300
        (1, 2, 10, FacilityStatus.mk 4 200 (some 9))).changed = false ∧
    (StateManager.handle_map_update
        { territory := [((1, 2), TerritoryController.mk 1 2 [(10, 3, 100)] [(10, 7)])] } 300
        (1, 2, 10, FacilityStatus.mk 4 200 (some 9))).emitted = [] ∧
    (∃ c', dictLookup (StateManager.handle_map_update
        { territory := [((1, 2), TerritoryController.mk 1 2 [(10, 3, 100)] [(10, 7)])] } 300
        (1, 2, 10, FacilityStatus.mk 4 200 (some 9))).state.territory (1, 2)
        = some c' ∧
      dictLookup c'.ownership 10 = some (3, 100) ∧
      dictLookup c'.outfits 10
        = dictLookup (TerritoryController.mk 1 2 [(10, 3, 100)] [(10, 7)]).outfits 10) :=
  C5_capture_raises
    { territory := [((1, 2), TerritoryController.mk 1 2 [(10, 3, 100)] [(10, 7)])] } 300
    1 2 10 3 100 (TerritoryController.mk 1 2 [(10, 3, 100)] [(10, 7)])
    (FacilityStatus.mk 4 200 (some 9))
    (by decide) rfl rfl (by decide) (by decide)

theorem filter_congr_on {α : Type} (l : List α) (p q : α → Bool)
    (h : ∀ a ∈ l, p a = q a) : l.filter p = l.filter q := by
  induction l with
  | nil => rfl
  | cons a t ih =>
      rw [List.filter_cons, List.filter_cons, h a (List.mem_cons_self _ _),
        ih (fun b hb => h b (List.mem_cons_of_mem _ hb))]

/-- Reduction of `update_ownership` on an already initialized map. -/
theorem update_ownership_ne_nil (c : TerritoryController) (m : List (Nat × Nat))
    (now : Timestamp) (hne : c.ownership ≠ []) :
    c.update_ownership m now =
      ((m.filter (fun kv => !(decide (kv ∈ c.facility_items)))).foldl
        (TerritoryController.apply_change now) c,
       (m.filter (fun kv => !(decide (kv ∈ c.facility_items)))).length) := by
  simp only [TerritoryController.update_ownership, if_neg hne]

/-- C4: on an initialized controller, `update_ownership` returns exactly
the number of candidate facilities whose faction differs from the stored
one (facilities absent from the map count as differing), entries
identical to the current ones keep their stored timestamp, and a second
call with the same mapping reports zero changes. -/
theorem C4_idempotent_count (c : TerritoryController) (m : List (Nat × Nat))
    (now1 now2 : Timestamp)
    (hne : c.ownership ≠ []) (hnd : NodupKeys c.ownership) (hm : NodupKeys m) :
    ((c.update_ownership m now1).1.update_ownership m now2).2 = 0 ∧
    (c.update_ownership m now1).2
      = (m.filter (fun kv =>
          decide (¬((dictLookup c.ownership kv.1).map Prod.fst = some kv.2)))).length ∧
    (∀ k v t, (k, v) ∈ m → dictLookup c.ownership k = some (v, t) →
      dictLookup (c.update_ownership m now1).1.ownership k = some (v, t)) := by
  have hupd1 := update_ownership_ne_nil c m now1 hne
  set changes := m.filter (fun kv => !(decide (kv ∈ c.facility_items))) with hch
  set c1 := changes.foldl (TerritoryController.apply_change now1) c with hc1
  have hchnd : NodupKeys changes := nodupKeys_filter m _ hm
  have hc1ne : c1.ownership ≠ [] := foldl_apply_change_ne_nil now1 changes c hne
  -- a candidate entry already present keeps its key out of the change set
  have hnochange : ∀ k v t, (k, v) ∈ m → dictLookup c.ownership k = some (v, t) →
      dictLookup changes k = none := by
    intro k v t hkm hkc
    cases hsome : dictLookup changes k with
    | none => rfl
    | some v' =>
        have hmem' : (k, v') ∈ changes := dictLookup_mem hsome
        have hmm : (k, v') ∈ m := (List.mem_filter.mp hmem').1
        have hv' : v' = v := nodupKeys_unique hm hmm hkm
        subst hv'
        have hpred := (List.mem_filter.mp hmem').2
        have hit : (k, v') ∈ c.facility_items := items_of_lookup hkc
        simp [hit] at hpred
  -- entries identical to the current map are not re-stamped
  have hkeep : ∀ k v t, (k, v) ∈ m → dictLookup c.ownership k = some (v, t) →
      dictLookup c1.ownership k = some (v, t) := by
    intro k v t hkm hkc
    have := foldl_apply_change_lookup now1 changes c k hchnd
    rw [hnochange k v t hkm hkc] at this
    rw [hc1, this, hkc]
  -- after the first call, every candidate pair is among the current pairs
  have hmem1 : ∀ kv ∈ m, kv ∈ c1.facility_items := by
    intro kv hkv
    by_cases hit : kv ∈ c.facility_items
    · rcases items_lookup hit hnd with ⟨t, ht⟩
      exact items_of_lookup (hkeep kv.1 kv.2 t hkv ht)
    · have hkc : kv ∈ changes := List.mem_filter.mpr ⟨hkv, by simp [hit]⟩
      have hlk : dictLookup changes kv.1 = some kv.2 := mem_dictLookup hkc hchnd
      have := foldl_apply_change_lookup now1 changes c kv.1 hchnd
      rw [hlk] at this
      exact items_of_lookup (hc1 ▸ this)
  refine ⟨?_, ?_, ?_⟩
  · -- second call: the filtered change set is empty
    have h2 := update_ownership_ne_nil c1 m now2 hc1ne
    have hfil : m.filter (fun kv => !(decide (kv ∈ c1.facility_items))) = [] := by
      rw [List.filter_eq_nil_iff]
      intro kv hkv
      simp [hmem1 kv hkv]
    rw [hupd1]
    simp only
    rw [h2, hfil]
    rfl
  · -- the changed count is the number of differing candidate entries
    rw [hupd1]
    simp only
    have : m.filter (fun kv => !(decide (kv ∈ c.facility_items)))
        = m.filter (fun kv =>
            decide (¬((dictLookup c.ownership kv.1).map Prod.fst = some kv.2))) := by
      apply filter_congr_on
      intro kv _
      have hiff : kv ∈ c.facility_items ↔
          (dictLookup c.ownership kv.1).map Prod.fst = some kv.2 := by
        constructor
        · intro hit
          rcases items_lookup hit hnd with ⟨t, ht⟩
          rw [ht]
          rfl
        · intro hl
          cases hl' : dictLookup c.ownership kv.1 with
          | none => rw [hl'] at hl; exact Option.noConfusion hl
          | some vt =>
              rw [hl'] at hl
              have : vt.1 = kv.2 := Option.some.inj hl
              have hmem' := items_of_lookup hl'
              rw [this] at hmem'
              exact hmem'
      rw [decide_not]
      rw [decide_eq_decide.mpr hiff]
    rw [hch, this]
  · intro k v t hkm hkc
    rw [hupd1]
    exact hkeep k v t hkm hkc

/-- Witness for C4 at a concrete initialized controller and a mapping
that changes one facility, keeps one, and adds one. -/
theorem C4_idempotent_count_witness :
    (((TerritoryController.mk 1 2 [(10, 3, 100), (11, 2, 90)] []).update_ownership
        [(10, 3), (11, 4), (12, 1)] 200).1.update_ownership
        [(10, 3), (11, 4), (12, 1)] 201).2 = 0 ∧
    ((TerritoryController.mk 1 2 [(10, 3, 100), (11, 2, 90)] []).update_ownership
        [(10, 3), (11, 4), (12, 1)] 200).2
      = ([(10, 3), (11, 4), (12, 1)].filter (fun kv =>
          decide (¬((dictLookup (TerritoryController.mk 1 2
            [(10, 3, 100), (11, 2, 90)] []).ownership kv.1).map Prod.fst
              = some kv.2)))).length ∧
    (∀ k v t, (k, v) ∈ [(10, 3), (11, 4), (12, 1)] →
      dictLookup (TerritoryController.mk 1 2 [(10, 3, 100), (11, 2, 90)] []).ownership k
        = some (v, t) →
      dictLookup ((TerritoryController.mk 1 2 [(10, 3, 100), (11, 2, 90)] []).update_ownership
        [(10, 3), (11, 4), (12, 1)] 200).1.ownership k = some (v, t)) :=
  C4_idempotent_count (TerritoryController.mk 1 2 [(10, 3, 100), (11, 2, 90)] [])
    [(10, 3), (11, 4), (12, 1)] 200 201 (by decide) (by decide) (by decide)

theorem mem_dictInsert {κ α : Type} [DecidableEq κ]
    {l : List (κ × α)} {k : κ} {v : α} {q : κ × α}
    (h : q ∈ dictInsert l k v) : q ∈ l ∨ q = (k, v) := by
  induction l with
  | nil =>
      simp [dictInsert] at h
      exact Or.inr h
  | cons p t ih =>
      by_cases hp : p.1 = k
      · rw [dictInsert_cons, if_pos hp] at h
        rcases List.mem_cons.mp h with h | h
        · exact Or.inr h
        · exact Or.inl (List.mem_cons_of_mem _ h)
      · rw [dictInsert_cons, if_neg hp] at h
        rcases List.mem_cons.mp h with h | h
        · exact Or.inl (h ▸ List.mem_cons_self _ _)
        · rcases ih h with h | h
          · exact Or.inl (List.mem_cons_of_mem _ h)
          · exact Or.inr h

theorem update_ownership_ids (c : TerritoryController) (m : List (Nat × Nat))
    (now : Timestamp) :
    (c.update_ownership m now).1.server_id = c.server_id ∧
    (c.update_ownership m now).1.zone_id = c.zone_id := by
  by_cases hne : c.ownership = []
  · rw [TerritoryController.update_ownership, if_pos hne]
    exact ⟨rfl, rfl⟩
  · rw [update_ownership_ne_nil c m now hne]
    exact foldl_apply_change_ids now _ c

/-- A key already present in the registry is untouched by `_get_controller`
(the lazy insert only ever happens at an absent key). -/
theorem get_controller_preserves {st : StateManager} {key : Nat × Nat}
    {c : TerritoryController} (hc : dictLookup st.territory key = some c)
    (s z : Nat) :
    dictLookup (st.get_controller s z).1.territory key = some c := by
  rw [StateManager.get_controller]
  cases hlk : dictLookup st.territory (s, z) with
  | some c0 => exact hc
  | none =>
      have hne : key ≠ (s, z) := by
        intro he
        rw [he, hlk] at hc
        exact Option.noConfusion hc
      show dictLookup (dictInsert st.territory (s, z) _) key = some c
      rw [dictLookup_insert_ne _ _ _ _ hne, hc]

/-- Both branches of `handle_map_poll` write the updated controller back at
the payload's key; only the emission differs. -/
theorem handle_map_poll_state (st : StateManager) (now : Timestamp)
    (p : Nat × Nat × List (Nat × Nat)) :
    (st.handle_map_poll now p).state
      = StateManager.mk (dictInsert (st.get_controller p.1 p.2.1).1.territory (p.1, p.2.1)
          ((st.get_controller p.1 p.2.1).2.update_ownership p.2.2 now).1) := by
  simp only [StateManager.handle_map_poll]
  split
  · rfl
  · rfl

/-- The registry after `handle_map_update` is always exactly the
post-lookup registry: the mismatch branch returns it and every other
branch raises before any write-back. -/
theorem handle_map_update_state (st : StateManager) (now : Timestamp)
    (p : Nat × Nat × Nat × FacilityStatus) :
    (st.handle_map_update now p).state = (st.get_controller p.1 p.2.1).1 := by
  simp only [StateManager.handle_map_update]
  split
  · rfl
  · split
    · rfl
    · rfl

/-- Every handler step preserves every registry entry's presence and never
removes a facility key from its ownership map. -/
theorem applyOp_keys_mono (op : Op) (st : StateManager) (s z : Nat)
    (c : TerritoryController)
    (hc : dictLookup st.territory (s, z) = some c) :
    ∃ c', dictLookup (st.applyOp op).territory (s, z) = some c' ∧
      ∀ k, k ∈ keysOf c.ownership → k ∈ keysOf c'.ownership := by
  have main : ∀ (s1 z1 : Nat) (m1 : List (Nat × Nat)) (now : Timestamp),
      ∃ c', dictLookup (StateManager.mk (dictInsert
          (st.get_controller s1 z1).1.territory (s1, z1)
          ((st.get_controller s1 z1).2.update_ownership m1 now).1)).territory (s, z)
        = some c' ∧ ∀ k, k ∈ keysOf c.ownership → k ∈ keysOf c'.ownership := by
    intro s1 z1 m1 now
    by_cases hkey : (s1, z1) = (s, z)
    · have hs1 : s1 = s := congrArg Prod.fst hkey
      have hz1 : z1 = z := congrArg Prod.snd hkey
      subst hs1
      subst hz1
      have hg : st.get_controller s1 z1 = (st, c) := by
        rw [StateManager.get_controller, hc]
      rw [hg]
      refine ⟨(c.update_ownership m1 now).1, dictLookup_insert_self _ _ _, ?_⟩
      intro k hk
      by_cases hne : c.ownership = []
      · rw [hne] at hk
        simp [keysOf] at hk
      · rw [update_ownership_ne_nil c m1 now hne]
        exact foldl_apply_change_keys now _ c k hk
    · have hpres := get_controller_preserves hc s1 z1
      refine ⟨c, ?_, fun k hk => hk⟩
      show dictLookup (dictInsert _ (s1, z1) _) (s, z) = some c
      rw [dictLookup_insert_ne _ _ _ _ (fun he => hkey he.symm), hpres]
  cases op with
  | poll now p =>
      show ∃ c', dictLookup (st.handle_map_poll now p).state.territory (s, z) = some c' ∧ _
      rw [handle_map_poll_state]
      exact main p.1 p.2.1 p.2.2 now
  | update now p =>
      show ∃ c', dictLookup (st.handle_map_update now p).state.territory (s, z) = some c' ∧ _
      rw [handle_map_update_state]
      exact ⟨c, get_controller_preserves hc p.1 p.2.1, fun k hk => hk⟩

/-- C6 counterexample: a controller initialized with the single facility
10 receives a later full snapshot `{10: 3, 11: 2}` through the poll path;
the key set of its OwnershipMap afterwards is `[10, 11]`, not `[10]` — a
new key appeared after initialization, so the key set is not stable. -/
theorem C6_poll_adds_key_counterexample :
    dictLookup (StateManager.applyOps
        { territory := [((1, 2), TerritoryController.mk 1 2 [(10, 3, 100)] [])] }
        [Op.poll 200 (1, 2, [(10, 3), (11, 2)])]).territory (1, 2)
      = some (TerritoryController.mk 1 2 [(10, 3, 100), (11, 2, 200)] []) ∧
    keysOf (TerritoryController.mk 1 2 [(10, 3, 100), (11, 2, 200)] []).ownership
      ≠ keysOf (TerritoryController.mk 1 2 [(10, 3, 100)] []).ownership := by
  decide

/-- C6 amended: the key set of a controller's OwnershipMap never shrinks —
under any sequence of snapshot or single-facility updates, a controller
present in the registry stays present and every facility key it had is
still there.  New keys can appear, but only through the snapshot path:
later polls containing new facilities add their keys (as the
counterexample shows), while the single-facility path raises
`AttributeError` before `update_ownership` and never adds a key. -/
theorem C6_keys_never_removed (st : StateManager) (ops : List Op)
    (s z f : Nat) (c : TerritoryController)
    (hc : dictLookup st.territory (s, z) = some c)
    (hf : f ∈ keysOf c.ownership) :
    ∃ c', dictLookup (st.applyOps ops).territory (s, z) = some c' ∧
      f ∈ keysOf c'.ownership := by
  induction ops generalizing st c with
  | nil => exact ⟨c, hc, hf⟩
  | cons op t ih =>
      rcases applyOp_keys_mono op st s z c hc with ⟨c1, hc1, hmono⟩
      exact ih (st.applyOp op) c1 hc1 (hmono f hf)

/-- Witness for the amended C6: after a poll and an unknown-facility
update, the initial facility 10 is still present. -/
theorem C6_keys_never_removed_witness :
    ∃ c', dictLookup (StateManager.applyOps
        { territory := [((1, 2), TerritoryController.mk 1 2 [(10, 3, 100)] [])] }
        [Op.poll 200 (1, 2, [(10, 4), (11, 2)]),
         Op.update 300 (1, 2, 5, FacilityStatus.mk 4 250 none)]).territory (1, 2)
      = some c' ∧ 10 ∈ keysOf c'.ownership :=
  C6_keys_never_removed
    { territory := [((1, 2), TerritoryController.mk 1 2 [(10, 3, 100)] [])] }
    [Op.poll 200 (1, 2, [(10, 4), (11, 2)]),
     Op.update 300 (1, 2, 5, FacilityStatus.mk 4 250 none)]
    1 2 10 (TerritoryController.mk 1 2 [(10, 3, 100)] [])
    (by decide) (by decide)

/-- Registry invariant: every stored controller carries exactly the
server and zone ids of the key it is stored under. -/
def StateManager.WellKeyed (st : StateManager) : Prop :=
  ∀ key c, (key, c) ∈ st.territory → c.server_id = key.1 ∧ c.zone_id = key.2

theorem get_controller_wellKeyed {st : StateManager} (hW : st.WellKeyed)
    (s z : Nat) :
    (st.get_controller s z).1.WellKeyed ∧
    (st.get_controller s z).2.server_id = s ∧
    (st.get_controller s z).2.zone_id = z := by
  rw [StateManager.get_controller]
  cases hlk : dictLookup st.territory (s, z) with
  | some c0 =>
      have := hW (s, z) c0 (dictLookup_mem hlk)
      exact ⟨hW, this.1, this.2⟩
  | none =>
      refine ⟨?_, rfl, rfl⟩
      intro key c hmem
      rcases mem_dictInsert hmem with h | h
      · exact hW key c h
      · have hkey : key = (s, z) := congrArg Prod.fst h
        have hcval : c = TerritoryController.init s z := congrArg Prod.snd h
        subst hkey
        subst hcval
        exact ⟨rfl, rfl⟩

theorem applyOp_wellKeyed (op : Op) {st : StateManager} (hW : st.WellKeyed) :
    (st.applyOp op).WellKeyed := by
  have main : ∀ (s1 z1 : Nat) (m1 : List (Nat × Nat)) (now : Timestamp),
      (StateManager.mk (dictInsert (st.get_controller s1 z1).1.territory (s1, z1)
          ((st.get_controller s1 z1).2.update_ownership m1 now).1)).WellKeyed := by
    intro s1 z1 m1 now
    have hg := get_controller_wellKeyed hW s1 z1
    intro key c hmem
    rcases mem_dictInsert hmem with h | h
    · exact hg.1 key c h
    · have hkey : key = (s1, z1) := congrArg Prod.fst h
      have hcval : c = ((st.get_controller s1 z1).2.update_ownership m1 now).1 :=
        congrArg Prod.snd h
      subst hkey
      subst hcval
      have hids := update_ownership_ids (st.get_controller s1 z1).2 m1 now
      exact ⟨hids.1.trans hg.2.1, hids.2.trans hg.2.2⟩
  cases op with
  | poll now p =>
      show ((st.handle_map_poll now p).state).WellKeyed
      rw [handle_map_poll_state]
      exact main p.1 p.2.1 p.2.2 now
  | update now p =>
      show ((st.handle_map_update now p).state).WellKeyed
      rw [handle_map_update_state]
      exact (get_controller_wellKeyed hW p.1 p.2.1).1

/-- C10: on every reachable registry state, each stored controller's
`server_id`/`zone_id` equal the components of its key, so the
`mismatched controller` warning branch of `handle_map_update` can never
fire. -/
theorem C10_mismatch_unreachable (st : StateManager)
    (hreach : StateManager.Reachable st) :
    st.WellKeyed ∧
    (∀ (now : Timestamp) (p : Nat × Nat × Nat × FacilityStatus),
      (st.handle_map_update now p).warned_mismatch = false) := by
  have hW : st.WellKeyed := by
    induction hreach with
    | init => intro key c hmem; simp at hmem
    | step op h ih => exact applyOp_wellKeyed op ih
  refine ⟨hW, ?_⟩
  intro now p
  have hg := get_controller_wellKeyed hW p.1 p.2.1
  have hguard : ¬(p.1 ≠ (st.get_controller p.1 p.2.1).2.server_id ∨
      p.2.1 ≠ (st.get_controller p.1 p.2.1).2.zone_id) := by
    intro h
    rcases h with h | h
    · exact h hg.2.1.symm
    · exact h hg.2.2.symm
  simp only [StateManager.handle_map_update, if_neg hguard]
  split
  · rfl
  · rfl

/-- Witness for C10 at the reachable state produced by one
single-facility update applied to the empty registry. -/
theorem C10_mismatch_unreachable_witness :
    (StateManager.applyOp { territory := [] }
        (Op.update 100 (1, 2, 7, FacilityStatus.mk 3 50 none))).WellKeyed ∧
    (∀ (now : Timestamp) (p : Nat × Nat × Nat × FacilityStatus),
      ((StateManager.applyOp { territory := [] }
          (Op.update 100 (1, 2, 7, FacilityStatus.mk 3 50 none))).handle_map_update
        now p).warned_mismatch = false) :=
  C10_mismatch_unreachable
    (StateManager.applyOp { territory := [] }
      (Op.update 100 (1, 2, 7, FacilityStatus.mk 3 50 none)))
    (StateManager.Reachable.step _ StateManager.Reachable.init)

/-! Embedding of `_messaging.py` (`MessagingComponent`). -/

/-- A subscriber callback as the bus sees it: an identity, whether
`asyncio.iscoroutinefunction` holds for it, and whether its body raises
when the event loop later runs it. -/
structure Callback where
  id : Nat
  isCoro : Bool
  raisesOnRun : Bool
deriving DecidableEq

/-- The private `self.__subscriptions : dict[str, list[Callback]]`. -/
abbrev Subscriptions := List (String × List Callback)

/-- Expression `self.__subscriptions.get(topic, [])` used by `emit`. -/
def subscriptionsFor (subs : Subscriptions) (topic : String) : List Callback :=
  (dictLookup subs topic).getD []

/-- Method `emit(topic, payload)`.  `asyncio.get_running_loop()` raising
is re-raised as `RuntimeError('dispatch requires event loop')`; this is
the `loopRunning = false` case.  Otherwise each subscriber is scheduled —
`loop.create_task(callback(payload))` for coroutine callbacks (calling a
coroutine function only builds the coroutine, it does not run the body)
and `loop.call_soon_threadsafe(callback, payload)` for plain ones — so
the callback bodies do not execute inside `emit` and scheduling itself
cannot raise a subscriber's exception; the per-callback `try/except` around
scheduling therefore never fires in the model and `subs_notified` counts
every subscriber.  Returns the scheduled invocations and that count. -/
def MessagingComponent.emit (loopRunning : Bool) (subs : Subscriptions)
    (topic : String) (payload : Nat) :
    Except String (List (Callback × Nat) × Nat) :=
  if ¬loopRunning then
    Except.error "dispatch requires event loop"
  else
    let scheduled := (subscriptionsFor subs topic).map (fun cb => (cb, payload))
    Except.ok (scheduled, scheduled.length)

/-- Method `subscribe(topic, callback)`: create the topic's list on
`KeyError`, append the callback unless already present (a duplicate is
logged and ignored).  The body never consults the event loop —
`loopRunning` is deliberately unread — so the call succeeds with or
without one. -/
def MessagingComponent.subscribe (loopRunning : Bool) (subs : Subscriptions)
    (topic : String) (cb : Callback) : Except String Subscriptions :=
  let cur := (dictLookup subs topic).getD []
  if cb ∈ cur then
    Except.ok subs
  else
    Except.ok (dictInsert subs topic (cur ++ [cb]))

/-- Outcome of the event loop running one scheduled invocation. -/
inductive DeliveryOutcome where
  | delivered (cb : Nat) (payload : Nat)
  | exceptionLogged (cb : Nat)
deriving DecidableEq

/-- The event loop later runs each scheduled invocation independently; an
invocation whose callback raises has the exception caught and logged by
the loop (per the `emit` docstring, exceptions in dispatched callbacks
are logged and ignored), with no effect on the other invocations. -/
def runScheduled (ts : List (Callback × Nat)) : List DeliveryOutcome :=
  ts.map (fun t =>
    if t.1.raisesOnRun then DeliveryOutcome.exceptionLogged t.1.id
    else DeliveryOutcome.delivered t.1.id t.2)

/-- C7: with two subscribers on a topic, one of which raises when run,
`emit` still returns normally (no exception escapes to the emitter),
every subscriber of the topic — the raising one included — is scheduled,
the non-raising subscriber is delivered the payload, and the raising
subscriber's exception is caught and logged. -/
theorem C7_bus_isolation (subs : Subscriptions) (topic : String) (payload : Nat)
    (cb1 cb2 : Callback)
    (h1 : cb1 ∈ subscriptionsFor subs topic)
    (h2 : cb2 ∈ subscriptionsFor subs topic)
    (hraise : cb1.raisesOnRun = true)
    (hok : cb2.raisesOnRun = false) :
    ∃ scheduled n, MessagingComponent.emit true subs topic payload
        = Except.ok (scheduled, n) ∧
      (∀ cb ∈ subscriptionsFor subs topic, (cb, payload) ∈ scheduled) ∧
      DeliveryOutcome.delivered cb2.id payload ∈ runScheduled scheduled ∧
      DeliveryOutcome.exceptionLogged cb1.id ∈ runScheduled scheduled := by
  refine ⟨(subscriptionsFor subs topic).map (fun cb => (cb, payload)), _, rfl, ?_, ?_, ?_⟩
  · intro cb hcb
    exact List.mem_map_of_mem _ hcb
  · have hm2 : (cb2, payload) ∈ (subscriptionsFor subs topic).map (fun cb => (cb, payload)) :=
      List.mem_map_of_mem _ h2
    have heq : DeliveryOutcome.delivered cb2.id payload
        = (fun t : Callback × Nat =>
            if t.1.raisesOnRun then DeliveryOutcome.exceptionLogged t.1.id
            else DeliveryOutcome.delivered t.1.id t.2) (cb2, payload) := by
      simp [hok]
    rw [runScheduled, heq]
    exact List.mem_map_of_mem _ hm2
  · have hm1 : (cb1, payload) ∈ (subscriptionsFor subs topic).map (fun cb => (cb, payload)) :=
      List.mem_map_of_mem _ h1
    have heq : DeliveryOutcome.exceptionLogged cb1.id
        = (fun t : Callback × Nat =>
            if t.1.raisesOnRun then DeliveryOutcome.exceptionLogged t.1.id
            else DeliveryOutcome.delivered t.1.id t.2) (cb1, payload) := by
      simp [hraise]
    rw [runScheduled, heq]
    exact List.mem_map_of_mem _ hm1

/-- Witness for C7 with a raising and a well-behaved subscriber on one
topic. -/
theorem C7_bus_isolation_witness :
    ∃ scheduled n, MessagingComponent.emit true
        [("map_update", [Callback.mk 1 false true, Callback.mk 2 false false])]
        "map_update" 77
        = Except.ok (scheduled, n) ∧
      (∀ cb ∈ subscriptionsFor
          [("map_update", [Callback.mk 1 false true, Callback.mk 2 false false])]
          "map_update", (cb, 77) ∈ scheduled) ∧
      DeliveryOutcome.delivered 2 77 ∈ runScheduled scheduled ∧
      DeliveryOutcome.exceptionLogged 1 ∈ runScheduled scheduled :=
  C7_bus_isolation
    [("map_update", [Callback.mk 1 false true, Callback.mk 2 false false])]
    "map_update" 77 (Callback.mk 1 false true) (Callback.mk 2 false false)
    (by decide) (by decide) rfl rfl

/-- C8 counterexample: with no event loop running, `subscribe` does not
fail fast — it succeeds and records the subscription, because the method
body never queries the scheduling context. -/
theorem C8_subscribe_counterexample :
    MessagingComponent.subscribe false [] "map_update" (Callback.mk 1 false false)
      = Except.ok [("map_update", [Callback.mk 1 false false])] := by
  rfl

/-- C8 amended: `emit` without a running event loop fails fast with
`RuntimeError('dispatch requires event loop')`, but `subscribe` performs
no such check and succeeds (returning the updated or unchanged
subscription map) whether or not a loop is running. -/
theorem C8_loop_check_amended (subs : Subscriptions) (topic : String)
    (payload : Nat) (cb : Callback) :
    MessagingComponent.emit false subs topic payload
      = Except.error "dispatch requires event loop" ∧
    (∃ subs', MessagingComponent.subscribe false subs topic cb = Except.ok subs') := by
  constructor
  · rfl
  · by_cases h : cb ∈ (dictLookup subs topic).getD []
    · exact ⟨subs, by simp [MessagingComponent.subscribe, h]⟩
    · exact ⟨dictInsert subs topic ((dictLookup subs topic).getD [] ++ [cb]),
        by simp [MessagingComponent.subscribe, h]⟩

/-! Embedding of `_census_sync.py` (`CensusSync`). -/

/-- Payload of one `map_poll` message (the `MapPollPayload` NamedTuple). -/
structure MapPollPayload where
  world_id : Nat
  zone_id : Nat
  ownership : List (Nat × Nat)
deriving DecidableEq

/-- One world's REST response as the `fetch_world` closure sees it: the
HTTP status and, once parsed, the `map_list` of (ZoneId, region rows). -/
structure WorldResponse where
  status : Nat
  map_list : List (Nat × List (Nat × Nat))
deriving DecidableEq

/-- Method `_build_payloads(world_id, data)`: one payload per entry of
`data['map_list']`, the ownership dict built row by row from
`RowData['RegionId']` / `RowData['FactionId']`. -/
def CensusSync.build_payloads (world_id : Nat)
    (map_list : List (Nat × List (Nat × Nat))) : List MapPollPayload :=
  map_list.map (fun m =>
    MapPollPayload.mk world_id m.1
      (m.2.foldl (fun acc row => dictInsert acc row.1 row.2) []))

/-- Closure `fetch_world` inside `_fetch`: a non-200 response is logged
and discarded for this tick; a 200 response is decomposed into per-zone
payloads, each handed to `_rest_received`. -/
def CensusSync.fetch_world (world_id : Nat) (resp : WorldResponse) :
    List MapPollPayload :=
  if resp.status ≠ 200 then [] else CensusSync.build_payloads world_id resp.map_list

/-- Environment of one poll tick: how long the spawned `_fetch` takes in
wall-clock time, what each world's request returns (`none` models a
transport error raised for that world), and `self._running` when the
payloads reach `_rest_received`.  No code path in `_poll` or `_fetch`
reads the duration: `CensusSync.__init__` accepts no timeout and the
fetch is never wrapped in `asyncio.wait_for` nor cancelled. -/
structure TickSpec where
  duration : Nat
  responses : List (Nat × WorldResponse)
  running : Bool
deriving DecidableEq

/-- Result of one tick's `_fetch` task.  `attempted` is what the tick's
200 responses decompose into — the payloads handed one by one to
`_rest_received`; `dispatched` is what actually gets published on
`map_poll`; `dispatch_error_swallowed` records that an `AttributeError`
from the publishing step reached `_fetch`'s catch-all and was logged. -/
structure TickResult where
  attempted : List MapPollPayload
  dispatched : List MapPollPayload
  dispatch_error_swallowed : Bool
deriving DecidableEq

/-- One tick's `_fetch` task.  Each world's 200 response is decomposed by
`_build_payloads` and each payload passed to `_rest_received`, which when
`self._running` executes `self.dispatch('map_poll', map_data)` — but
`MessagingComponent` defines no `dispatch` (its method is `emit`), so the
first such call raises `AttributeError`; `asyncio.gather` re-raises it
into `_fetch`'s `try`, whose `except Exception` logs and swallows it
(worlds whose request itself raised contribute nothing the same way).
When `_running` is false `_rest_received` does nothing.  Either way
nothing is ever published on `map_poll` and the task ends normally.  The
tick's duration appears nowhere on the right-hand side: no timeout
exists that could abandon the fetch. -/
def CensusSync.fetchTick (worlds : List Nat) (spec : TickSpec) : TickResult :=
  let attempted := worlds.foldl (fun acc w =>
    match dictLookup spec.responses w with
    | some resp => acc ++ CensusSync.fetch_world w resp
    | none => acc) []
  { attempted := attempted,
    dispatched := [],
    dispatch_error_swallowed := spec.running && !attempted.isEmpty }

/-- The `while True` loop of `_poll`: each iteration logs, spawns an
independent `_fetch` task with `asyncio.create_task`, and sleeps for
`_poll_interval`.  The body never inspects the previous tick's task, so
after `n` intervals exactly `n` ticks have been spawned whatever their
outcomes; only cancelling the task (the `stop` method) ends the loop. -/
def CensusSync.pollTicks (worlds : List Nat) (specs : Nat → TickSpec) :
    Nat → List TickResult
  | 0 => []
  | n + 1 => CensusSync.pollTicks worlds specs n ++ [CensusSync.fetchTick worlds (specs n)]

/-- C9, evaluated at the failing input: a tick whose fetch takes 1,000,000
time units — far beyond the 18-second `polling_timeout` that
`__main__.py` tries to pass to the constructor — behaves exactly like an
instant one: it is not abandoned (no per-tick timeout exists anywhere in
`CensusSync`), its snapshot is still fetched and decomposed, and the
loop still runs every scheduled tick.  Independently, the publishing
step raises a swallowed `AttributeError` (`self.dispatch` does not
exist), so no payload reaches `map_poll` on any tick. -/
theorem C9_no_poll_timeout :
    CensusSync.fetchTick [1]
        (TickSpec.mk 1000000 [(1, WorldResponse.mk 200 [(2, [(10, 3)])])] true)
      = CensusSync.fetchTick [1]
        (TickSpec.mk 0 [(1, WorldResponse.mk 200 [(2, [(10, 3)])])] true) ∧
    (CensusSync.fetchTick [1]
        (TickSpec.mk 1000000 [(1, WorldResponse.mk 200 [(2, [(10, 3)])])] true)).attempted
      = [MapPollPayload.mk 1 2 [(10, 3)]] ∧
    (CensusSync.fetchTick [1]
        (TickSpec.mk 1000000 [(1, WorldResponse.mk 200 [(2, [(10, 3)])])] true)).dispatched
      = [] ∧
    (CensusSync.fetchTick [1]
        (TickSpec.mk 1000000
          [(1, WorldResponse.mk 200 [(2, [(10, 3)])])] true)).dispatch_error_swallowed
      = true ∧
    (CensusSync.pollTicks [1]
        (fun _ => TickSpec.mk 1000000 [(1, WorldResponse.mk 200 [(2, [(10, 3)])])] true)
        5).length = 5 := by
  decide

end PS2Map









